import Mathlib

/-!
Verification of the impact-score calculator repository.

The scoring core consists of three Python units:
  * `src/impact_score_calculator.py` — validated pure formula
    (`ImpactScoreCalculator.calculate_impact_score`, `_validate_components`);
  * `src/intelligent_estimator.py`   — heuristic component estimation from
    ticket text plus the same scoring formula and a priority classification;
  * `estimate_impact_score.py`       — interactive script with the same
    scoring formula (`ImpactScoreEstimator.calculate_score`).

The embedding below translates those functions directly.  Python floats are
modelled as exact rationals (`ℚ`); `round(x, 1)` is modelled as exact
round-half-to-even at one decimal digit (`round1`).  No claim in this
development depends on a half-way rounding case, so the binary-float
representation detail is immaterial to every statement proved here.
Python strings are Lean `String`s; `x in s` (substring test) is `containsSub`;
`x or ''` on an optional string is `orEmpty`.
-/

/-- Substring test: Python `needle in hay` for strings. -/
def containsSub (hay needle : String) : Bool :=
  hay.toList.tails.any (fun t => needle.toList.isPrefixOf t)

/-- Python `x or ''` applied to an optional string field (None ↦ ''). -/
def orEmpty (o : Option String) : String := o.getD ""

/-- Python `s.lower()` (ASCII), character by character.  (`String.toLower`
itself is implemented with a partial auxiliary and does not reduce in the
kernel, so the embedding maps over the character list.) -/
def pyLower (s : String) : String := String.mk (s.toList.map Char.toLower)

/-- Python `s.strip()`: drop leading and trailing whitespace. -/
def pyStrip (s : String) : String :=
  String.mk (((s.toList.dropWhile Char.isWhitespace).reverse.dropWhile Char.isWhitespace).reverse)

/-- Round-half-to-even of a rational to an integer (Python `round(q)` on an
exactly-representable value). -/
def roundHalfEven (q : ℚ) : ℤ :=
  if q - (⌊q⌋ : ℚ) < 1/2 then ⌊q⌋
  else if 1/2 < q - (⌊q⌋ : ℚ) then ⌊q⌋ + 1
  else if ⌊q⌋ % 2 = 0 then ⌊q⌋ else ⌊q⌋ + 1

/-- Python `round(q, 1)`: round to one decimal digit. -/
def round1 (q : ℚ) : ℚ := (roundHalfEven (q * 10) : ℚ) / 10

/-- The five priority tiers printed by the scoring code
(`intelligent_estimator.py` lines 497-507, `estimate_impact_score.py`
lines 258-268). -/
inductive PriorityTier where
  | CRITICAL
  | HIGH
  | MEDIUM
  | LOW
  | MINIMAL
deriving DecidableEq

/-- Numeric rank of a tier, used to state monotonicity. -/
def tierRank : PriorityTier → ℕ
  | .MINIMAL => 0
  | .LOW => 1
  | .MEDIUM => 2
  | .HIGH => 3
  | .CRITICAL => 4

/-- The threshold cascade shared verbatim by `intelligent_estimator.py`
(lines 498-507) and `estimate_impact_score.py` (lines 259-268). -/
def classify (s : ℚ) : PriorityTier :=
  if 90 ≤ s then .CRITICAL
  else if 70 ≤ s then .HIGH
  else if 50 ≤ s then .MEDIUM
  else if 30 ≤ s then .LOW
  else .MINIMAL

/-- `ImpactScoreComponents` dataclass of `impact_score_calculator.py`;
the same eight numbers form the components dictionary of
`estimate_impact_score.py`. -/
structure ImpactScoreComponents where
  impact_severity : ℤ
  customer_arr : ℤ
  sla_breach : ℤ
  frequency : ℤ
  workaround : ℤ
  rca_action_item : ℤ
  support_multiplier : ℚ
  account_multiplier : ℚ
deriving DecidableEq

/-- Sum of the six integer components (`base_score` in all three scoring
functions). -/
def base_score (c : ImpactScoreComponents) : ℤ :=
  c.impact_severity + c.customer_arr + c.sla_breach +
  c.frequency + c.workaround + c.rca_action_item

/-- The declared bounds of the eight fields (the conditions checked by
`_validate_components`). -/
def ValidComponents (c : ImpactScoreComponents) : Prop :=
  (0 ≤ c.impact_severity ∧ c.impact_severity ≤ 38) ∧
  (0 ≤ c.customer_arr ∧ c.customer_arr ≤ 15) ∧
  (c.sla_breach = 0 ∨ c.sla_breach = 8) ∧
  (0 ≤ c.frequency ∧ c.frequency ≤ 16) ∧
  (0 ≤ c.workaround ∧ c.workaround ≤ 15) ∧
  (c.rca_action_item = 0 ∨ c.rca_action_item = 8) ∧
  (0 ≤ c.support_multiplier ∧ c.support_multiplier ≤ 0.15) ∧
  (0 ≤ c.account_multiplier ∧ c.account_multiplier ≤ 0.15)

instance : DecidablePred ValidComponents := fun c => by
  unfold ValidComponents; infer_instance

/-- `ImpactScoreCalculator._validate_components`
(`impact_score_calculator.py` lines 96-121): the checks run in source order
and the first failing check raises `ValueError` with the field name and the
offending value. -/
def validate_components (c : ImpactScoreComponents) : Except String Unit :=
  if ¬(0 ≤ c.impact_severity ∧ c.impact_severity ≤ 38) then
    .error ("Impact & Severity must be 0-38, got " ++ toString c.impact_severity)
  else if ¬(0 ≤ c.customer_arr ∧ c.customer_arr ≤ 15) then
    .error ("Customer ARR must be 0-15, got " ++ toString c.customer_arr)
  else if ¬(c.sla_breach = 0 ∨ c.sla_breach = 8) then
    .error ("SLA Breach must be 0 or 8, got " ++ toString c.sla_breach)
  else if ¬(0 ≤ c.frequency ∧ c.frequency ≤ 16) then
    .error ("Frequency must be 0-16, got " ++ toString c.frequency)
  else if ¬(0 ≤ c.workaround ∧ c.workaround ≤ 15) then
    .error ("Workaround must be 0-15, got " ++ toString c.workaround)
  else if ¬(c.rca_action_item = 0 ∨ c.rca_action_item = 8) then
    .error ("RCA Action Item must be 0 or 8, got " ++ toString c.rca_action_item)
  else if ¬(0 ≤ c.support_multiplier ∧ c.support_multiplier ≤ 0.15) then
    .error ("Support Multiplier must be 0-0.15, got " ++ toString c.support_multiplier)
  else if ¬(0 ≤ c.account_multiplier ∧ c.account_multiplier ≤ 0.15) then
    .error ("Account Multiplier must be 0-0.15, got " ++ toString c.account_multiplier)
  else .ok ()

/-- `ImpactScoreCalculator.calculate_impact_score`
(`impact_score_calculator.py` lines 62-94): validate, sum the six integer
components, apply the multipliers and round to one decimal. -/
def ImpactScoreCalculator.calculate_impact_score
    (c : ImpactScoreComponents) : Except String ℚ :=
  match validate_components c with
  | .error e => .error e
  | .ok _ =>
      let b := c.impact_severity + c.customer_arr + c.sla_breach +
               c.frequency + c.workaround + c.rca_action_item
      let total_multiplier := 1 + c.support_multiplier + c.account_multiplier
      .ok (round1 ((b : ℚ) * total_multiplier))

/-- `ImpactScoreEstimator.calculate_score` (`estimate_impact_score.py`
lines 243-270): base score, rounded final score and the priority tier.
The classification is applied to the unrounded product; only the returned
score is rounded. -/
def ImpactScoreEstimator.calculate_score
    (c : ImpactScoreComponents) : ℤ × ℚ × PriorityTier :=
  let b := c.impact_severity + c.customer_arr + c.sla_breach +
           c.frequency + c.workaround + c.rca_action_item
  let total_multiplier := 1 + c.support_multiplier + c.account_multiplier
  let final : ℚ := (b : ℚ) * total_multiplier
  (b, round1 final, classify final)

/-- Component dictionary produced by
`IntelligentImpactEstimator.estimate_all_components`: each of the six
components carries a score and a reason string, the multipliers are bare
numbers. -/
structure EstimatedComponents where
  impact_severity : ℤ × String
  customer_arr : ℤ × String
  sla_breach : ℤ × String
  frequency : ℤ × String
  workaround : ℤ × String
  rca_action_item : ℤ × String
  support_multiplier : ℚ
  account_multiplier : ℚ
deriving DecidableEq

/-- Forget the reason strings, keeping the eight numbers. -/
def EstimatedComponents.scores (e : EstimatedComponents) : ImpactScoreComponents :=
  { impact_severity := e.impact_severity.1
    customer_arr := e.customer_arr.1
    sla_breach := e.sla_breach.1
    frequency := e.frequency.1
    workaround := e.workaround.1
    rca_action_item := e.rca_action_item.1
    support_multiplier := e.support_multiplier
    account_multiplier := e.account_multiplier }

/-- `IntelligentImpactEstimator.calculate_impact_score`
(`intelligent_estimator.py` lines 483-509): identical formula and
classification to the interactive script, reading the scores out of the
nested component dictionary. -/
def IntelligentImpactEstimator.calculate_impact_score
    (e : EstimatedComponents) : ℤ × ℚ × PriorityTier :=
  let b := e.impact_severity.1 + e.customer_arr.1 + e.sla_breach.1 +
           e.frequency.1 + e.workaround.1 + e.rca_action_item.1
  let total_multiplier := 1 + e.support_multiplier + e.account_multiplier
  let final : ℚ := (b : ℚ) * total_multiplier
  (b, round1 final, classify final)

/-! ## Ticket data and the heuristic component estimators

`IntelligentImpactEstimator.extract_ticket_info` always stores every key of
the ticket dictionary; a source column that is absent or blank is stored as
`None`.  A field is therefore modelled as `Option String` (`none` = Python
`None`), and the labels field as the list that `_get_labels` always
produces. -/

structure TicketData where
  summary : Option String
  description : Option String
  priority : Option String
  severity : Option String
  labels : List String
  customer_name : Option String
  workaround : Option String
  rca : Option String
deriving DecidableEq

/-- `PRIORITY_TO_SEVERITY` dictionary (exact key lookup). -/
def PRIORITY_TO_SEVERITY : List (String × ℤ) :=
  [("blocker", 38), ("critical", 38), ("highest", 38), ("high", 30),
   ("medium", 22), ("low", 16), ("lowest", 8), ("trivial", 8)]

/-- `SEVERITY_MAPPINGS` dictionary in insertion order; the estimator scans it
in order and fires on the first key that occurs as a substring of the
severity field. -/
def SEVERITY_MAPPINGS : List (String × ℤ) :=
  [("1 - critical", 38), ("1 - high", 38), ("sev 1", 38), ("p1", 38),
   ("2 - high", 30), ("2 - medium", 30), ("sev 2", 30), ("p2", 30),
   ("3 - medium", 22), ("3 - low", 22), ("sev 3", 22), ("p3", 22),
   ("4 - low", 16), ("p4", 16), ("5 - trivial", 8), ("p5", 8)]

def VIP_CUSTOMERS : List String :=
  ["monday.com", "monday", "salesforce", "twilio", "stripe",
   "shopify", "zoom", "slack", "datadog", "hashicorp"]

def SLA_KEYWORDS : List String :=
  ["sla breach", "sla violated", "exceeded sla", "manual recovery", "downtime"]

def RCA_KEYWORDS : List String :=
  ["rca", "root cause", "action item", "post mortem", "postmortem"]

def p4_indicators : List String :=
  ["metric", "metrics", "monitoring", "prometheus", "grafana",
   "alert", "alerting", "false alert", "reporting",
   "dashboard", "visualization", "observability"]

def service_ok_indicators : List String :=
  ["service is fine", "service working", "db is working",
   "fully functional", "no actual", "appears to be",
   "reporting issue", "calculation artifact", "metrics artifact"]

def no_breach_indicators : List String :=
  ["no sla breach", "no downtime", "no shard downtime",
   "no actual", "shards stable", "service is fine",
   "fully functional", "no service impact"]

def freqMultipleKeywords : List String :=
  ["multiple", "several", "recurring", "repeated", "again", "reoccur"]

def freqSingleKeywords : List String :=
  ["first time", "one time", "single", "once"]

def workaroundNoneKws : List String :=
  ["no workaround", "cannot", "impossible", "requires fix", "needs patch"]

def workaroundImpactKws : List String :=
  ["performance", "slower", "degraded", "limited",
   "inconvenient", "operational overhead", "manual intervention",
   "hard-coded", "hardcoded", "manual update", "manually update",
   "reduced capability", "reduced effectiveness", "not as designed",
   "operational impact", "requires updating", "human error",
   "reduced confidence", "less effective", "workaround impact"]

def workaroundComplexKws : List String :=
  ["manual", "multiple steps", "requires", "need to"]

/-- Combined lowercased `description + ' ' + summary` text used by the
severity, ARR and frequency estimators. -/
def combinedDesc (t : TicketData) : String :=
  pyLower (orEmpty t.description ++ " " ++ orEmpty t.summary)

/-- `is_monitoring_issue` flag of `estimate_impact_severity`. -/
def isMonitoringIssue (t : TicketData) : Bool :=
  p4_indicators.any (containsSub (combinedDesc t))

/-- `service_is_ok` flag of `estimate_impact_severity`. -/
def serviceIsOk (t : TicketData) : Bool :=
  service_ok_indicators.any (containsSub (combinedDesc t))

/-- `priority in PRIORITY_TO_SEVERITY` lookup on the lowercased priority
field. -/
def priorityLookup (t : TicketData) : Option ℤ :=
  (PRIORITY_TO_SEVERITY.find? (fun kv => kv.1 == pyLower (orEmpty t.priority))).map (fun kv => kv.2)

/-- Lowercased severity field. -/
def severityField (t : TicketData) : String := pyLower (orEmpty t.severity)

/-- First entry of `SEVERITY_MAPPINGS` whose key is a substring of the
severity field. -/
def severityLookup (sev : String) : Option (String × ℤ) :=
  SEVERITY_MAPPINGS.find? (fun kv => containsSub sev kv.1)

/-- `IntelligentImpactEstimator.estimate_impact_severity`
(`intelligent_estimator.py` lines 160-238). -/
def IntelligentImpactEstimator.estimate_impact_severity (t : TicketData) : ℤ × String :=
  let desc := combinedDesc t
  let mon := isMonitoringIssue t
  let ok := serviceIsOk t
  if mon && ok then
    (16, "Monitoring/metrics issue with service functioning normally (P4)")
  else
    let priority := pyLower (orEmpty t.priority)
    match priorityLookup t with
    | some score =>
        if mon && ok && decide (16 < score) then
          (16, "Priority \x27" ++ priority ++ "\x27 indicates " ++ toString score ++
               " points, but adjusted to 16 for monitoring-only issue")
        else
          (score, "Priority \x27" ++ priority ++ "\x27 indicates " ++ toString score ++ " points")
    | none =>
        let severity := severityField t
        match severityLookup severity with
        | some kv =>
            if (containsSub kv.1 "4" || containsSub severity "low") && mon then
              (16, "Severity field \x27" ++ severity ++ "\x27 maps to " ++ toString kv.2 ++
                   " points (monitoring issue)")
            else
              (kv.2, "Severity field \x27" ++ severity ++ "\x27 maps to " ++ toString kv.2 ++ " points")
        | none =>
            if ["critical", "down", "outage", "stopped", "crash", "data loss"].any (containsSub desc) then
              if ok then (16, "Critical keywords found but service is functioning (P4)")
              else (38, "Critical keywords found in description")
            else if ["degraded", "slow", "performance"].any (containsSub desc) then
              if mon && ok then (16, "Performance keywords found but service OK (monitoring issue, P4)")
              else (30, "Performance degradation keywords found")
            else if ["error", "bug", "issue", "problem"].any (containsSub desc) then
              if mon && ok then (16, "Issue keywords found but monitoring-only (P4)")
              else (22, "General issue keywords found")
            else (22, "No clear severity indicators, defaulting to P3")

/-- `IntelligentImpactEstimator.estimate_customer_arr`
(`intelligent_estimator.py` lines 240-278). -/
def IntelligentImpactEstimator.estimate_customer_arr (t : TicketData) : ℤ × String :=
  let customer := pyLower (orEmpty t.customer_name)
  let desc := combinedDesc t
  match VIP_CUSTOMERS.find? (fun vip => containsSub customer (pyLower vip) || containsSub desc (pyLower vip)) with
  | some vip => (15, "VIP customer \x27" ++ vip ++ "\x27 identified")
  | none =>
    if containsSub desc "multiple customers" || containsSub desc "several customers" then
      (8, "Multiple customers mentioned")
    else
      let labels_str := pyLower (String.intercalate " " t.labels)
      if containsSub labels_str "enterprise" || containsSub labels_str "premium" then
        (13, "Enterprise/Premium labels found")
      else if containsSub desc "essentials" || containsSub desc "standard" then
        (10, "Standard subscription tier mentioned")
      else if customer != "" || containsSub desc "customer" then
        (10, "Customer mentioned but ARR unknown")
      else
        (0, "No customer information found, assuming single low ARR")

/-- One step of the search for the regex `(\d+)\s*(hour|hr|minute|min).*down`:
at a digit position, consume the maximal digit run, skip whitespace, match a
unit word and require `down` somewhere after it. -/
def downtimeAux : List Char → Bool
  | [] => false
  | c :: cs =>
      (if c.isDigit then
        let rest := ((c :: cs).dropWhile Char.isDigit).dropWhile Char.isWhitespace
        ["hour", "hr", "minute", "min"].any (fun u =>
          u.toList.isPrefixOf rest &&
          (rest.drop u.length).tails.any (fun s => "down".toList.isPrefixOf s))
       else false)
      || downtimeAux cs

/-- Characters of `l` strictly before the first occurrence of `pat`
(Python `desc[:desc.find(pat)]`; only used when `pat` occurs in `l`). -/
def beforeSubAux (pat : List Char) : List Char → List Char
  | [] => []
  | c :: cs => if pat.isPrefixOf (c :: cs) then [] else c :: beforeSubAux pat cs

/-- Combined lowercased `description + ' ' + summary + ' ' + rca` text of
`estimate_sla_breach`. -/
def slaDesc (t : TicketData) : String :=
  pyLower (orEmpty t.description ++ " " ++ orEmpty t.summary ++ " " ++ orEmpty t.rca)

/-- `IntelligentImpactEstimator.estimate_sla_breach`
(`intelligent_estimator.py` lines 280-316).  The final branch evaluates
`self.ticket_data.get('priority', '').lower()`; the `priority` key is always
present, so a `None` value reaches `.lower()` and raises `AttributeError`,
modelled as `Except.error`. -/
def IntelligentImpactEstimator.estimate_sla_breach (t : TicketData) : Except String (ℤ × String) :=
  let desc := slaDesc t
  if no_breach_indicators.any (containsSub desc) then
    .ok (0, "No SLA breach (service confirmed stable/functional)")
  else
    match SLA_KEYWORDS.find? (containsSub desc) with
    | some keyword => .ok (8, "SLA breach keyword \x27" ++ keyword ++ "\x27 found")
    | none =>
      let downtimeCond :=
        if containsSub desc "down" then
          downtimeAux desc.toList &&
          !(containsSub (String.mk (beforeSubAux "down".toList desc.toList)) "no")
        else false
      if downtimeCond then
        .ok (8, "Downtime duration mentioned, potential SLA impact")
      else
        match t.priority with
        | none => .error "AttributeError: \x27NoneType\x27 object has no attribute \x27lower\x27"
        | some p =>
          if ["blocker", "critical", "highest"].contains (pyLower p) then
            .ok (8, "Critical priority suggests potential SLA breach")
          else
            .ok (0, "No SLA breach indicators found")

/-- Digit run to a natural number. -/
def digitsToNat (l : List Char) : ℕ :=
  l.foldl (fun n c => 10 * n + (c.toNat - 48)) 0

/-- Leftmost match of `(\d+)\s*(times|occurrences)`: at each digit position,
take the maximal digit run, skip whitespace and require one of the two
literals. -/
def freqCountAux : List Char → Option ℕ
  | [] => none
  | c :: cs =>
      if c.isDigit then
        let ds := (c :: cs).takeWhile Char.isDigit
        let rest := ((c :: cs).dropWhile Char.isDigit).dropWhile Char.isWhitespace
        if "times".toList.isPrefixOf rest || "occurrences".toList.isPrefixOf rest then
          some (digitsToNat ds)
        else freqCountAux cs
      else freqCountAux cs

/-- Search for the case-sensitive regex `RED-\d+`.  Note that the estimator
applies it to the lowercased text. -/
def redMatchAux : List Char → Bool
  | [] => false
  | c :: cs =>
      ("RED-".toList.isPrefixOf (c :: cs) &&
        (match (c :: cs).drop 4 with
         | d :: _ => d.isDigit
         | [] => false))
      || redMatchAux cs

/-- Keyword phase of `estimate_frequency`, reached when the explicit numeric
pattern is absent or its count is below 2. -/
def freqKeywordPhase (desc : String) : ℤ × String :=
  match freqMultipleKeywords.find? (containsSub desc) with
  | some keyword => (16, "Multiple occurrence keyword \x27" ++ keyword ++ "\x27 found")
  | none =>
    match freqSingleKeywords.find? (containsSub desc) with
    | some keyword => (0, "Single occurrence keyword \x27" ++ keyword ++ "\x27 found")
    | none =>
      if containsSub desc "similar to" || containsSub desc "same as" || redMatchAux desc.toList then
        (8, "References to similar issues found")
      else
        (0, "No clear frequency indicators, assuming single occurrence")

/-- `IntelligentImpactEstimator.estimate_frequency`
(`intelligent_estimator.py` lines 318-354). -/
def IntelligentImpactEstimator.estimate_frequency (t : TicketData) : ℤ × String :=
  let desc := combinedDesc t
  match freqCountAux desc.toList with
  | some count =>
      if 4 < count then (16, toString count ++ " occurrences mentioned")
      else if 2 ≤ count then (8, toString count ++ " occurrences mentioned")
      else freqKeywordPhase desc
  | none => freqKeywordPhase desc

/-- `IntelligentImpactEstimator.estimate_workaround`
(`intelligent_estimator.py` lines 356-409). -/
def IntelligentImpactEstimator.estimate_workaround (t : TicketData) : ℤ × String :=
  let workaround_text := orEmpty t.workaround
  let desc := orEmpty t.description ++ " " ++ orEmpty t.summary
  let combined := pyLower (workaround_text ++ " " ++ desc)
  if workaroundNoneKws.any (containsSub combined) then
    (15, "No workaround available, fix required")
  else if (containsSub combined "fix" || containsSub combined "patch" ||
           containsSub combined "requires version") && !containsSub combined "workaround" then
    (15, "Fix/patch required, no workaround")
  else
    let has_workaround := containsSub combined "workaround" ||
      containsSub combined "use instead" || containsSub combined "alternative"
    if has_workaround then
      if workaroundImpactKws.any (containsSub combined) then
        (12, "Workaround with performance/operational impact detected")
      else if workaroundComplexKws.any (containsSub combined) then
        (10, "Complex workaround found")
      else
        (5, "Simple workaround found")
    else if workaround_text != "" && pyStrip workaround_text != "" &&
            !(["nan", "none", "n/a"].contains (pyLower workaround_text)) then
      if workaroundImpactKws.any (containsSub (pyLower workaround_text)) then
        (12, "Workaround field shows performance/operational impact")
      else if workaroundComplexKws.any (containsSub (pyLower workaround_text)) then
        (10, "Workaround field shows complex workaround")
      else
        (10, "Workaround field populated")
    else
      (10, "No clear workaround information, assuming complex workaround needed")

/-- `IntelligentImpactEstimator.estimate_rca_action_item`
(`intelligent_estimator.py` lines 411-437). -/
def IntelligentImpactEstimator.estimate_rca_action_item (t : TicketData) : ℤ × String :=
  let rca_text := orEmpty t.rca
  let desc := orEmpty t.description ++ " " ++ orEmpty t.summary
  let combined := pyLower (rca_text ++ " " ++ desc)
  if rca_text != "" && pyStrip rca_text != "" && decide (50 < (pyStrip rca_text).length) then
    (8, "RCA field contains substantial content")
  else
    match RCA_KEYWORDS.find? (containsSub combined) with
    | some keyword => (8, "RCA keyword \x27" ++ keyword ++ "\x27 found")
    | none =>
      let labels_str := pyLower (String.intercalate " " t.labels)
      if containsSub labels_str "rca" || containsSub labels_str "postmortem" then
        (8, "RCA label found")
      else
        (0, "No RCA indicators found")

/-- `IntelligentImpactEstimator.estimate_all_components`
(`intelligent_estimator.py` lines 439-481): runs the six estimators, with
both multipliers fixed at 0.0.  Propagates the `AttributeError` that
`estimate_sla_breach` can raise. -/
def IntelligentImpactEstimator.estimate_all_components (t : TicketData) :
    Except String EstimatedComponents :=
  match IntelligentImpactEstimator.estimate_sla_breach t with
  | .error e => .error e
  | .ok sla =>
      .ok { impact_severity := IntelligentImpactEstimator.estimate_impact_severity t
            customer_arr := IntelligentImpactEstimator.estimate_customer_arr t
            sla_breach := sla
            frequency := IntelligentImpactEstimator.estimate_frequency t
            workaround := IntelligentImpactEstimator.estimate_workaround t
            rca_action_item := IntelligentImpactEstimator.estimate_rca_action_item t
            support_multiplier := 0
            account_multiplier := 0 }

/-! ## Label extraction (`src/label_extractor.py`) -/

/-- `TECHNICAL_KEYWORDS` allow-list (a Python set; listed here in source
order — the extractor output never depends on the iteration order). -/
def TECHNICAL_KEYWORDS : List String :=
  ["crdb", "active-active", "aa", "sentinel", "proxy", "dmcproxy",
   "ovc", "vector-clock",
   "acre", "azure", "aws", "gcp", "kubernetes", "k8s", "rlec",
   "crash", "timeout", "acl", "rbac", "ssl", "tls", "certificate",
   "upgrade", "migration", "failover",
   "modules", "lua", "rdb", "aof",
   "streams", "pubsub", "search", "json", "timeseries", "graph", "bloom"]

/-- `EXCLUDED_KEYWORDS` block-list.  The extractor never consults it at
runtime; exclusion is realised by these terms not being in
`TECHNICAL_KEYWORDS`. -/
def EXCLUDED_KEYWORDS : List String :=
  ["redis", "cluster", "database", "shard", "replica", "slave", "master",
   "replication", "sync", "synchronization", "conflict", "resolution", "merge",
   "memory", "cpu", "disk", "network", "latency", "performance",
   "connection", "authentication", "auth", "encryption", "cloud", "enterprise",
   "backup", "restore", "recovery", "restart", "deployment", "scaling", "sharding",
   "scripts", "persistence"]

/-- Regex word character (`\w`): ASCII letter, digit or underscore. -/
def isWordChar (c : Char) : Bool := c.isAlphanum || c == '_'

/-- No word character to the left of a word boundary. -/
def boundaryBefore : Option Char → Bool
  | none => true
  | some c => !isWordChar c

/-- No word character to the right of a word boundary. -/
def boundaryAfter : List Char → Bool
  | [] => true
  | c :: _ => !isWordChar c

/-- Search for `\b kw \b` (keywords start and end with word characters):
`prev` is the character preceding the current position. -/
def wholeWordAux (kw : List Char) : Option Char → List Char → Bool
  | prev, [] => boundaryBefore prev && kw.isEmpty
  | prev, c :: cs =>
      (boundaryBefore prev && kw.isPrefixOf (c :: cs) &&
        boundaryAfter ((c :: cs).drop kw.length)) ||
      wholeWordAux kw (some c) cs

/-- Whole-word, case-insensitive keyword occurrence
(`re.search(r'\b' + re.escape(keyword) + r'\b', text_lower)`). -/
def wholeWordIn (text kw : String) : Bool :=
  wholeWordAux kw.toList none text.toList

/-- `LabelExtractor._extract_technical_keywords`
(`label_extractor.py` lines 147-170): the subset of the allow-list occurring
as whole words in the lowercased text. -/
def LabelExtractor.extract_technical_keywords (text : String) : List String :=
  if text == "" then []
  else TECHNICAL_KEYWORDS.filter (fun kw => wholeWordIn (pyLower text) kw)

/-- Does the list start with a hyphen? -/
def startsWithDash : List Char → Bool
  | [] => false
  | c :: _ => c == '-'

/-- `CUSTOMER_PATTERN.match`: regex
`^([A-Za-z0-9]+(?:\s+[A-Za-z0-9]+)?)\s*-` with greedy matching; returns
group 1.  Maximal-run matching is exact here: shortening an alphanumeric run
can never let the regex succeed, because the following character would again
be alphanumeric where whitespace or a hyphen is required. -/
def matchCustomer (l : List Char) : Option String :=
  let w1 := l.takeWhile Char.isAlphanum
  if w1.isEmpty then none
  else
    let r1 := l.drop w1.length
    let ws := r1.takeWhile Char.isWhitespace
    let w2 := (r1.drop ws.length).takeWhile Char.isAlphanum
    let afterTwo := r1.drop (ws.length + w2.length)
    if !ws.isEmpty && !w2.isEmpty && startsWithDash (afterTwo.dropWhile Char.isWhitespace) then
      some (String.mk (w1 ++ ws ++ w2))
    else if startsWithDash (r1.dropWhile Char.isWhitespace) then
      some (String.mk w1)
    else none

/-- Python `s.replace(' ', '-')`. -/
def pyReplaceSpaces (s : String) : String :=
  String.mk (s.toList.map (fun c => if c == ' ' then '-' else c))

/-- `LabelExtractor._extract_customer` (`label_extractor.py` lines 123-145):
explicit customer name if truthy, else the `"Name - "` summary pattern;
lowercased with spaces turned into hyphens. -/
def LabelExtractor.extract_customer (summary : String) (customer_name : Option String) :
    Option String :=
  match customer_name with
  | some cn =>
      if cn != "" then some (pyReplaceSpaces (pyLower cn))
      else (matchCustomer summary.toList).map (fun g => pyReplaceSpaces (pyLower (pyStrip g)))
  | none => (matchCustomer summary.toList).map (fun g => pyReplaceSpaces (pyLower (pyStrip g)))

/-- Code-point lexicographic comparison on character lists (the order used
by Python `list.sort()` on strings). -/
def listLexLe : List Char → List Char → Bool
  | [], _ => true
  | _ :: _, [] => false
  | a :: as, b :: bs =>
      if a.toNat < b.toNat then true
      else if b.toNat < a.toNat then false
      else listLexLe as bs

/-- Code-point lexicographic comparison on strings. -/
def strLe (a b : String) : Bool := listLexLe a.toList b.toList

/-- Insert a string into a sorted list. -/
def insSorted (s : String) : List String → List String
  | [] => [s]
  | x :: xs => if strLe s x then s :: x :: xs else x :: insSorted s xs

/-- Insertion sort, modelling Python `list.sort()` on strings (ascending
code-point order; the sorted lists here are duplicate-free, so stability is
irrelevant). -/
def sortStr : List String → List String
  | [] => []
  | x :: xs => insSorted x (sortStr xs)

/-- `LabelExtractor.extract_labels` (`label_extractor.py` lines 58-121).
The Python code collects candidates in a set, then emits the source tag
first, the customer tag second and the remaining tags alphabetically,
truncated to `max_labels`; that output is independent of the set iteration
order, which licenses the list-with-dedup model below. -/
def LabelExtractor.extract_labels (summary : String) (description : String)
    (customer_name : Option String) (source : Option String)
    (max_labels : ℕ) : List String :=
  let sourceTag : Option String :=
    match source with
    | some s => if s != "" then some (pyLower s) else none
    | none => none
  let customer := LabelExtractor.extract_customer summary customer_name
  let set1 := (sourceTag.toList ++ customer.toList ++
               LabelExtractor.extract_technical_keywords summary).dedup
  let set2 :=
    if set1.length < max_labels && description != "" then
      (set1 ++ LabelExtractor.extract_technical_keywords description).dedup
    else set1
  let priority_labels := sourceTag.toList ++
    customer.toList.filter (fun c => !(sourceTag == some c))
  let other_labels := sortStr (set2.filter (fun l =>
    !(sourceTag == some l) && !(customer == some l)))
  (priority_labels ++ other_labels).take max_labels

/-! ## Concrete inputs used by the claims -/

deriving instance DecidableEq for Except

/-- Example components from the spec: `(38,15,8,16,15,8,0.15,0.15)`. -/
def exampleComponents : ImpactScoreComponents := ⟨38, 15, 8, 16, 15, 8, 0.15, 0.15⟩

/-- A small valid components record. -/
def smallComponents : ImpactScoreComponents := ⟨8, 5, 0, 8, 5, 0, 0, 0⟩

/-- Components with `impact_severity = 39` (out of range). -/
def badSeverityComponents : ImpactScoreComponents := ⟨39, 0, 0, 0, 0, 0, 0, 0⟩

/-- Components with `sla_breach = 4` (not 0 or 8). -/
def badSlaComponents : ImpactScoreComponents := ⟨22, 15, 4, 16, 15, 8, 0, 0⟩

/-- Components with `support_multiplier = 0.16` (above the bound). -/
def badSupportComponents : ImpactScoreComponents := ⟨22, 15, 8, 16, 15, 8, 0.16, 0⟩

/-- Valid components whose unrounded final score `80 * 1.1245 = 89.96` is
below the CRITICAL threshold while its one-decimal rounding `90.0` is on it. -/
def roundingCrossComponents : ImpactScoreComponents := ⟨38, 15, 8, 16, 3, 0, 0.1245, 0⟩

/-- A ticket dictionary in which every optional field is `None` (the value
`extract_ticket_info` stores when a source column is absent or blank). -/
def emptyTicket : TicketData := ⟨none, none, none, none, [], none, none, none⟩

/-- Unmapped priority, severity field `"3 - low"`, and a description that
contains a monitoring keyword but no service-is-OK phrase. -/
def monitoringLowTicket : TicketData :=
  ⟨none, some "metric", none, some "3 - low", [], none, none, none⟩

/-- A ticket whose summary references another ticket ID. -/
def redRefTicket : TicketData := ⟨some "see RED-1234", none, none, none, [], none, none, none⟩

/-- A ticket whose summary contains a `similar to` phrase. -/
def similarToTicket : TicketData :=
  ⟨some "similar to another problem", none, none, none, [], none, none, none⟩

/-- A ticket with priority `critical` and nothing else. -/
def criticalPriorityTicket : TicketData :=
  ⟨none, none, some "critical", none, [], none, none, none⟩

/-- The label-extraction example summary from the spec. -/
def fedexSummary : String :=
  "FedEx - CRDB slave OVC higher than master causing replication failure"

/-! ## Helper lemmas -/

/-- Validation succeeds exactly on components satisfying the declared
bounds. -/
theorem validate_components_ok_iff (c : ImpactScoreComponents) :
    validate_components c = Except.ok () ↔ ValidComponents c := by
  unfold validate_components ValidComponents
  split_ifs <;> simp_all

/-- Validation succeeds on valid components. -/
theorem validate_components_ok_of_valid (c : ImpactScoreComponents)
    (h : ValidComponents c) : validate_components c = Except.ok () :=
  (validate_components_ok_iff c).mpr h


/-- All-zero components. -/
def zeroComponents : ImpactScoreComponents := ⟨0, 0, 0, 0, 0, 0, 0, 0⟩

/-- The two first branches of `roundHalfEven`. -/
theorem roundHalfEven_lt (q : ℚ) (h : q - (⌊q⌋ : ℚ) < 1/2) : roundHalfEven q = ⌊q⌋ := by
  unfold roundHalfEven
  rw [if_pos h]

theorem roundHalfEven_gt (q : ℚ) (h : 1/2 < q - (⌊q⌋ : ℚ)) : roundHalfEven q = ⌊q⌋ + 1 := by
  unfold roundHalfEven
  rw [if_neg (by linarith), if_pos h]

/-- Rounding to one decimal is the identity on integers. -/
theorem round1_int (n : ℤ) : round1 (n : ℚ) = n := by
  have h10 : (n : ℚ) * 10 = ((n * 10 : ℤ) : ℚ) := by push_cast; ring
  have hf : ⌊((n * 10 : ℤ) : ℚ)⌋ = n * 10 := Int.floor_intCast _
  unfold round1
  rw [h10, roundHalfEven_lt _ (by rw [hf]; norm_num), hf]
  push_cast
  ring

/-- `round(89.96, 1) = 90.0`. -/
theorem round1_eval_8996 : round1 (89.96 : ℚ) = 90 := by
  have h10 : (89.96 : ℚ) * 10 = 899.6 := by norm_num
  have hf : ⌊(899.6 : ℚ)⌋ = 899 := by
    rw [Int.floor_eq_iff]
    constructor <;> norm_num
  unfold round1
  rw [h10, roundHalfEven_gt _ (by rw [hf]; norm_num), hf]
  norm_num

theorem classify_8996 : classify (89.96 : ℚ) = PriorityTier.HIGH := by
  unfold classify
  norm_num

/-- The calculator on validated components: the formula without the
validation wrapper. -/
theorem calculate_impact_score_eq (c : ImpactScoreComponents) (h : ValidComponents c) :
    ImpactScoreCalculator.calculate_impact_score c =
      Except.ok (round1 ((base_score c : ℚ) *
        (1 + c.support_multiplier + c.account_multiplier))) := by
  unfold ImpactScoreCalculator.calculate_impact_score
  rw [validate_components_ok_of_valid c h]
  rfl

/-- The example components are valid. -/
theorem exampleComponents_valid : ValidComponents exampleComponents := by
  norm_num [ValidComponents, exampleComponents]

/-! ## Claims about the score model -/

/-- Claim C1: for every `ImpactScoreComponents` value satisfying its declared
bounds, `calculate_impact_score` returns
`round(base_score * (1 + support_multiplier + account_multiplier), 1)` where
`base_score` is the sum of the six integer components; in particular the
components `(38,15,8,16,15,8,0.15,0.15)` have base score 100 and final score
130.0. -/
theorem C1_calculator_formula :
    (∀ c : ImpactScoreComponents, ValidComponents c →
      ImpactScoreCalculator.calculate_impact_score c =
        Except.ok (round1 ((base_score c : ℚ) *
          (1 + c.support_multiplier + c.account_multiplier)))) ∧
    base_score exampleComponents = 100 ∧
    ImpactScoreCalculator.calculate_impact_score exampleComponents = Except.ok 130 := by
  have hbase : base_score exampleComponents = 100 := by
    norm_num [base_score, exampleComponents]
  refine ⟨calculate_impact_score_eq, hbase, ?_⟩
  rw [calculate_impact_score_eq exampleComponents exampleComponents_valid, hbase]
  have h130 : ((100 : ℤ) : ℚ) *
      (1 + exampleComponents.support_multiplier + exampleComponents.account_multiplier) =
      ((130 : ℤ) : ℚ) := by
    norm_num [exampleComponents]
  rw [h130, round1_int]
  norm_num

/-- Witness for C1: the formula theorem applied at the example components. -/
theorem C1_witness :
    ImpactScoreCalculator.calculate_impact_score exampleComponents =
      Except.ok (round1 ((base_score exampleComponents : ℚ) *
        (1 + exampleComponents.support_multiplier + exampleComponents.account_multiplier))) :=
  C1_calculator_formula.1 exampleComponents (by norm_num [ValidComponents, exampleComponents])

/-- Claim C2: the priority classification is CRITICAL iff `90 ≤ s`, HIGH iff
`70 ≤ s < 90`, MEDIUM iff `50 ≤ s < 70`, LOW iff `30 ≤ s < 50`, and MINIMAL
iff `s < 30`; the boundary scores 90, 70, 50 and 30 land in the higher tier,
and the classification is monotone non-decreasing in the score. -/
theorem C2_classification_thresholds :
    (∀ s : ℚ, (classify s = PriorityTier.CRITICAL ↔ 90 ≤ s)) ∧
    (∀ s : ℚ, (classify s = PriorityTier.HIGH ↔ 70 ≤ s ∧ s < 90)) ∧
    (∀ s : ℚ, (classify s = PriorityTier.MEDIUM ↔ 50 ≤ s ∧ s < 70)) ∧
    (∀ s : ℚ, (classify s = PriorityTier.LOW ↔ 30 ≤ s ∧ s < 50)) ∧
    (∀ s : ℚ, (classify s = PriorityTier.MINIMAL ↔ s < 30)) ∧
    classify 90 = PriorityTier.CRITICAL ∧ classify 70 = PriorityTier.HIGH ∧
    classify 50 = PriorityTier.MEDIUM ∧ classify 30 = PriorityTier.LOW ∧
    (∀ s t : ℚ, s ≤ t → tierRank (classify s) ≤ tierRank (classify t)) := by
  refine ⟨?_, ?_, ?_, ?_, ?_,
    by unfold classify; norm_num, by unfold classify; norm_num,
    by unfold classify; norm_num, by unfold classify; norm_num, ?_⟩
  · intro s
    unfold classify
    split_ifs <;> constructor <;> intro hc <;>
      first
      | rfl
      | linarith
      | (exact absurd hc (by decide))
      | (constructor <;> linarith)
      | (exfalso; obtain ⟨h5, h6⟩ := hc; linarith)
      | (exfalso; linarith)
  · intro s
    unfold classify
    split_ifs <;> constructor <;> intro hc <;>
      first
      | rfl
      | linarith
      | (exact absurd hc (by decide))
      | (constructor <;> linarith)
      | (exfalso; obtain ⟨h5, h6⟩ := hc; linarith)
      | (exfalso; linarith)
  · intro s
    unfold classify
    split_ifs <;> constructor <;> intro hc <;>
      first
      | rfl
      | linarith
      | (exact absurd hc (by decide))
      | (constructor <;> linarith)
      | (exfalso; obtain ⟨h5, h6⟩ := hc; linarith)
      | (exfalso; linarith)
  · intro s
    unfold classify
    split_ifs <;> constructor <;> intro hc <;>
      first
      | rfl
      | linarith
      | (exact absurd hc (by decide))
      | (constructor <;> linarith)
      | (exfalso; obtain ⟨h5, h6⟩ := hc; linarith)
      | (exfalso; linarith)
  · intro s
    unfold classify
    split_ifs <;> constructor <;> intro hc <;>
      first
      | rfl
      | linarith
      | (exact absurd hc (by decide))
      | (constructor <;> linarith)
      | (exfalso; obtain ⟨h5, h6⟩ := hc; linarith)
      | (exfalso; linarith)
  · intro s t hst
    unfold classify
    split_ifs <;> simp only [tierRank] <;> first | (exfalso; linarith) | decide

/-- Witness for C2: monotonicity applied at the concrete pair 29 ≤ 95. -/
theorem C2_witness : tierRank (classify 29) ≤ tierRank (classify 95) :=
  C2_classification_thresholds.2.2.2.2.2.2.2.2.2 29 95 (by norm_num)

/-- First validation check fails: severity out of `[0, 38]`. -/
theorem validate_err_severity (c : ImpactScoreComponents)
    (h : ¬(0 ≤ c.impact_severity ∧ c.impact_severity ≤ 38)) :
    validate_components c =
      Except.error ("Impact & Severity must be 0-38, got " ++ toString c.impact_severity) := by
  unfold validate_components
  rw [if_pos h]

/-- Second validation check fails: customer ARR out of `[0, 15]`. -/
theorem validate_err_arr (c : ImpactScoreComponents)
    (h1 : 0 ≤ c.impact_severity ∧ c.impact_severity ≤ 38)
    (h : ¬(0 ≤ c.customer_arr ∧ c.customer_arr ≤ 15)) :
    validate_components c =
      Except.error ("Customer ARR must be 0-15, got " ++ toString c.customer_arr) := by
  unfold validate_components
  rw [if_neg (not_not_intro h1), if_pos h]

/-- Third validation check fails: SLA breach not in `{0, 8}`. -/
theorem validate_err_sla (c : ImpactScoreComponents)
    (h1 : 0 ≤ c.impact_severity ∧ c.impact_severity ≤ 38)
    (h2 : 0 ≤ c.customer_arr ∧ c.customer_arr ≤ 15)
    (h : ¬(c.sla_breach = 0 ∨ c.sla_breach = 8)) :
    validate_components c =
      Except.error ("SLA Breach must be 0 or 8, got " ++ toString c.sla_breach) := by
  unfold validate_components
  rw [if_neg (not_not_intro h1), if_neg (not_not_intro h2), if_pos h]

/-- Fourth validation check fails: frequency out of `[0, 16]`. -/
theorem validate_err_freq (c : ImpactScoreComponents)
    (h1 : 0 ≤ c.impact_severity ∧ c.impact_severity ≤ 38)
    (h2 : 0 ≤ c.customer_arr ∧ c.customer_arr ≤ 15)
    (h3 : c.sla_breach = 0 ∨ c.sla_breach = 8)
    (h : ¬(0 ≤ c.frequency ∧ c.frequency ≤ 16)) :
    validate_components c =
      Except.error ("Frequency must be 0-16, got " ++ toString c.frequency) := by
  unfold validate_components
  rw [if_neg (not_not_intro h1), if_neg (not_not_intro h2), if_neg (not_not_intro h3),
      if_pos h]

/-- Fifth validation check fails: workaround out of `[0, 15]`. -/
theorem validate_err_workaround (c : ImpactScoreComponents)
    (h1 : 0 ≤ c.impact_severity ∧ c.impact_severity ≤ 38)
    (h2 : 0 ≤ c.customer_arr ∧ c.customer_arr ≤ 15)
    (h3 : c.sla_breach = 0 ∨ c.sla_breach = 8)
    (h4 : 0 ≤ c.frequency ∧ c.frequency ≤ 16)
    (h : ¬(0 ≤ c.workaround ∧ c.workaround ≤ 15)) :
    validate_components c =
      Except.error ("Workaround must be 0-15, got " ++ toString c.workaround) := by
  unfold validate_components
  rw [if_neg (not_not_intro h1), if_neg (not_not_intro h2), if_neg (not_not_intro h3),
      if_neg (not_not_intro h4), if_pos h]

/-- Sixth validation check fails: RCA action item not in `{0, 8}`. -/
theorem validate_err_rca (c : ImpactScoreComponents)
    (h1 : 0 ≤ c.impact_severity ∧ c.impact_severity ≤ 38)
    (h2 : 0 ≤ c.customer_arr ∧ c.customer_arr ≤ 15)
    (h3 : c.sla_breach = 0 ∨ c.sla_breach = 8)
    (h4 : 0 ≤ c.frequency ∧ c.frequency ≤ 16)
    (h5 : 0 ≤ c.workaround ∧ c.workaround ≤ 15)
    (h : ¬(c.rca_action_item = 0 ∨ c.rca_action_item = 8)) :
    validate_components c =
      Except.error ("RCA Action Item must be 0 or 8, got " ++ toString c.rca_action_item) := by
  unfold validate_components
  rw [if_neg (not_not_intro h1), if_neg (not_not_intro h2), if_neg (not_not_intro h3),
      if_neg (not_not_intro h4), if_neg (not_not_intro h5), if_pos h]

/-- Seventh validation check fails: support multiplier out of `[0, 0.15]`. -/
theorem validate_err_support (c : ImpactScoreComponents)
    (h1 : 0 ≤ c.impact_severity ∧ c.impact_severity ≤ 38)
    (h2 : 0 ≤ c.customer_arr ∧ c.customer_arr ≤ 15)
    (h3 : c.sla_breach = 0 ∨ c.sla_breach = 8)
    (h4 : 0 ≤ c.frequency ∧ c.frequency ≤ 16)
    (h5 : 0 ≤ c.workaround ∧ c.workaround ≤ 15)
    (h6 : c.rca_action_item = 0 ∨ c.rca_action_item = 8)
    (h : ¬(0 ≤ c.support_multiplier ∧ c.support_multiplier ≤ 0.15)) :
    validate_components c =
      Except.error ("Support Multiplier must be 0-0.15, got " ++ toString c.support_multiplier) := by
  unfold validate_components
  rw [if_neg (not_not_intro h1), if_neg (not_not_intro h2), if_neg (not_not_intro h3),
      if_neg (not_not_intro h4), if_neg (not_not_intro h5), if_neg (not_not_intro h6),
      if_pos h]

/-- Eighth validation check fails: account multiplier out of `[0, 0.15]`. -/
theorem validate_err_account (c : ImpactScoreComponents)
    (h1 : 0 ≤ c.impact_severity ∧ c.impact_severity ≤ 38)
    (h2 : 0 ≤ c.customer_arr ∧ c.customer_arr ≤ 15)
    (h3 : c.sla_breach = 0 ∨ c.sla_breach = 8)
    (h4 : 0 ≤ c.frequency ∧ c.frequency ≤ 16)
    (h5 : 0 ≤ c.workaround ∧ c.workaround ≤ 15)
    (h6 : c.rca_action_item = 0 ∨ c.rca_action_item = 8)
    (h7 : 0 ≤ c.support_multiplier ∧ c.support_multiplier ≤ 0.15)
    (h : ¬(0 ≤ c.account_multiplier ∧ c.account_multiplier ≤ 0.15)) :
    validate_components c =
      Except.error ("Account Multiplier must be 0-0.15, got " ++ toString c.account_multiplier) := by
  unfold validate_components
  rw [if_neg (not_not_intro h1), if_neg (not_not_intro h2), if_neg (not_not_intro h3),
      if_neg (not_not_intro h4), if_neg (not_not_intro h5), if_neg (not_not_intro h6),
      if_neg (not_not_intro h7), if_pos h]

/-- Claim C3: validation errors exactly when some field violates its declared
bound; the error message (for the first violated field in check order) names
the field and its value; boundary values are accepted, and out-of-range
values are rejected rather than clamped.  The concrete conjuncts confirm the
documented rejections (`impact_severity=39` via the witness below,
`sla_breach=4`, `support_multiplier=0.16`) and acceptances. -/
theorem C3_validation_errors :
    (∀ c, (validate_components c = Except.ok () ↔ ValidComponents c)) ∧
    (∀ c, ¬(0 ≤ c.impact_severity ∧ c.impact_severity ≤ 38) →
      validate_components c =
        Except.error ("Impact & Severity must be 0-38, got " ++ toString c.impact_severity)) ∧
    (∀ c, (0 ≤ c.impact_severity ∧ c.impact_severity ≤ 38) →
      ¬(0 ≤ c.customer_arr ∧ c.customer_arr ≤ 15) →
      validate_components c =
        Except.error ("Customer ARR must be 0-15, got " ++ toString c.customer_arr)) ∧
    validate_components exampleComponents = Except.ok () ∧
    validate_components zeroComponents = Except.ok () ∧
    validate_components badSlaComponents =
      Except.error ("SLA Breach must be 0 or 8, got " ++ toString badSlaComponents.sla_breach) ∧
    validate_components badSupportComponents =
      Except.error ("Support Multiplier must be 0-0.15, got " ++
        toString badSupportComponents.support_multiplier) := by
  refine ⟨validate_components_ok_iff, validate_err_severity, validate_err_arr,
    validate_components_ok_of_valid _ exampleComponents_valid,
    validate_components_ok_of_valid _ (by norm_num [ValidComponents, zeroComponents]),
    validate_err_sla badSlaComponents (by decide) (by decide) (by decide),
    validate_err_support badSupportComponents (by decide) (by decide) (by decide)
      (by decide) (by decide) (by decide) (by norm_num [badSupportComponents])⟩

/-- Witness for C3: the severity error lemma applied at
`impact_severity = 39`. -/
theorem C3_witness :
    validate_components badSeverityComponents =
      Except.error ("Impact & Severity must be 0-38, got " ++
        toString badSeverityComponents.impact_severity) :=
  C3_validation_errors.2.1 badSeverityComponents (by decide)

/-- Claim C5 counterexample: valid components `(38,15,8,16,3,0,0.1245,0)`
produce the result record `(base 80, final 90.0, priority HIGH)` — the
priority is computed from the unrounded score 89.96 — while classifying the
reported rounded final score 90.0 gives CRITICAL.  So the reported priority
is not the classification of the reported final score. -/
theorem C5_counterexample :
    ValidComponents roundingCrossComponents ∧
    ImpactScoreEstimator.calculate_score roundingCrossComponents =
      (80, 90, PriorityTier.HIGH) ∧
    classify (90 : ℚ) = PriorityTier.CRITICAL := by
  refine ⟨by norm_num [ValidComponents, roundingCrossComponents], ?_, by unfold classify; norm_num⟩
  have key : ((roundingCrossComponents.impact_severity + roundingCrossComponents.customer_arr +
      roundingCrossComponents.sla_breach + roundingCrossComponents.frequency +
      roundingCrossComponents.workaround + roundingCrossComponents.rca_action_item : ℤ) : ℚ) *
      (1 + roundingCrossComponents.support_multiplier + roundingCrossComponents.account_multiplier) =
      (89.96 : ℚ) := by
    norm_num [roundingCrossComponents]
  show (_, round1 _, classify _) = _
  rw [key, round1_eval_8996, classify_8996]
  norm_num [roundingCrossComponents]

/-- Claim C5, amended: in every result record the reported priority tier is
the classification of the unrounded product
`base_score * (1 + support_multiplier + account_multiplier)`; the reported
final score is that product rounded to one decimal (so the two agree except
when rounding crosses a tier boundary, as in the counterexample). -/
theorem C5_priority_from_unrounded :
    (∀ c : ImpactScoreComponents,
      (ImpactScoreEstimator.calculate_score c).2.2 =
        classify ((base_score c : ℚ) * (1 + c.support_multiplier + c.account_multiplier)) ∧
      (ImpactScoreEstimator.calculate_score c).2.1 =
        round1 ((base_score c : ℚ) * (1 + c.support_multiplier + c.account_multiplier)) ∧
      (ImpactScoreEstimator.calculate_score c).1 = base_score c) ∧
    (∀ e : EstimatedComponents,
      (IntelligentImpactEstimator.calculate_impact_score e).2.2 =
        classify ((base_score e.scores : ℚ) *
          (1 + e.support_multiplier + e.account_multiplier))) :=
  ⟨fun _ => ⟨rfl, rfl, rfl⟩, fun _ => rfl⟩

/-- Claim C10: the three scoring implementations agree.  The intelligent
estimator and the interactive script compute identical triples, and on every
components record passing validation the calculator returns exactly the
rounded final score of the other two. -/
theorem C10_implementations_agree :
    (∀ e : EstimatedComponents,
      IntelligentImpactEstimator.calculate_impact_score e =
        ImpactScoreEstimator.calculate_score e.scores) ∧
    (∀ c : ImpactScoreComponents, ValidComponents c →
      ImpactScoreCalculator.calculate_impact_score c =
        Except.ok ((ImpactScoreEstimator.calculate_score c).2.1)) := by
  refine ⟨fun e => rfl, fun c h => ?_⟩
  rw [calculate_impact_score_eq c h]
  rfl

/-- Witness for C10: the calculator agrees with the script on a concrete
valid record. -/
theorem C10_witness :
    ImpactScoreCalculator.calculate_impact_score smallComponents =
      Except.ok ((ImpactScoreEstimator.calculate_score smallComponents).2.1) :=
  C10_implementations_agree.2 smallComponents (by norm_num [ValidComponents, smallComponents])

/-! ## Claims about the heuristic estimators -/

/-- Claim C4: on the all-`None` ticket dictionary five of the six estimators
fall through to their cascade defaults and return a (score, reason) pair, but
`estimate_sla_breach` does not: its final branch evaluates
`ticket_data.get('priority', '').lower()`, which is `None.lower()` when the
priority value is `None`, raising `AttributeError` — so the claim that no
estimator ever raises on absent/None fields fails on the code
(`intelligent_estimator.py` line 311; every other field access guards with
`or ''`).  `estimate_all_components` propagates the same error. -/
theorem C4_missing_fields_behavior :
    IntelligentImpactEstimator.estimate_impact_severity emptyTicket =
      (22, "No clear severity indicators, defaulting to P3") ∧
    IntelligentImpactEstimator.estimate_customer_arr emptyTicket =
      (0, "No customer information found, assuming single low ARR") ∧
    IntelligentImpactEstimator.estimate_frequency emptyTicket =
      (0, "No clear frequency indicators, assuming single occurrence") ∧
    IntelligentImpactEstimator.estimate_workaround emptyTicket =
      (10, "No clear workaround information, assuming complex workaround needed") ∧
    IntelligentImpactEstimator.estimate_rca_action_item emptyTicket =
      (0, "No RCA indicators found") ∧
    IntelligentImpactEstimator.estimate_sla_breach emptyTicket =
      Except.error "AttributeError: \x27NoneType\x27 object has no attribute \x27lower\x27" ∧
    IntelligentImpactEstimator.estimate_all_components emptyTicket =
      Except.error "AttributeError: \x27NoneType\x27 object has no attribute \x27lower\x27" := by
  decide

/-- Claim C6 counterexample: for the ticket with unmapped priority, severity
field `"3 - low"` (mapping to 22) and a monitoring keyword but no
service-is-OK phrase, the claimed override condition (monitoring AND
service-OK reducing a higher score) does not hold, yet the estimator returns
16 instead of the mapped 22: the code overrides on
`('4' in key or 'low' in severity) and is_monitoring_issue` without requiring
service-OK. -/
theorem C6_counterexample :
    priorityLookup monitoringLowTicket = none ∧
    severityLookup (severityField monitoringLowTicket) = some ("3 - low", 22) ∧
    ¬(isMonitoringIssue monitoringLowTicket = true ∧
      serviceIsOk monitoringLowTicket = true) ∧
    (IntelligentImpactEstimator.estimate_impact_severity monitoringLowTicket).1 = 16 := by
  decide

/-- Claim C6, amended: when the priority field does not map and the severity
field matches a `SEVERITY_MAPPINGS` key, the estimator returns the mapped
score unless the matched key contains `'4'` or the severity string contains
`'low'` and the monitoring-keyword condition holds (service-OK not required),
in which case it returns 16.  The monitoring-AND-service-OK hypothesis is
stated in the negative because step 1 of the cascade would already have
returned 16 otherwise. -/
theorem C6_severity_mapping_behavior :
    ∀ (t : TicketData) (k : String) (sc : ℤ),
      ¬(isMonitoringIssue t = true ∧ serviceIsOk t = true) →
      priorityLookup t = none →
      severityLookup (severityField t) = some (k, sc) →
      (IntelligentImpactEstimator.estimate_impact_severity t).1 =
        (if (containsSub k "4" || containsSub (severityField t) "low") && isMonitoringIssue t
         then 16 else sc) := by
  intro t k sc hmo hp hs
  have hmo2 : (isMonitoringIssue t && serviceIsOk t) = false := by
    cases h1 : isMonitoringIssue t <;> cases h2 : serviceIsOk t <;> simp_all
  simp only [IntelligentImpactEstimator.estimate_impact_severity, hmo2, hp, hs,
    Bool.false_eq_true, if_false]
  split <;> rfl

/-- Witness for C6: the amended theorem applied at the monitoring ticket. -/
theorem C6_witness :
    (IntelligentImpactEstimator.estimate_impact_severity monitoringLowTicket).1 =
      (if (containsSub "3 - low" "4" || containsSub (severityField monitoringLowTicket) "low")
          && isMonitoringIssue monitoringLowTicket
       then 16 else 22) :=
  C6_severity_mapping_behavior monitoringLowTicket "3 - low" 22
    (by decide) (by decide) (by decide)

/-- Claim C7: a ticket that only references another ticket ID falls through
to the default 0, not 8: the regex `RED-\d+` is case-sensitive but is applied
to the lowercased text, so the reference branch can never match; the
`similar to` phrase branch does return 8.  This contradicts the claim that a
ticket-ID reference alone yields 8. -/
theorem C7_ticket_reference_dead_branch :
    IntelligentImpactEstimator.estimate_frequency redRefTicket =
      (0, "No clear frequency indicators, assuming single occurrence") ∧
    containsSub (combinedDesc redRefTicket) "red-1234" = true ∧
    redMatchAux (combinedDesc redRefTicket).toList = false ∧
    redMatchAux "see RED-1234".toList = true ∧
    IntelligentImpactEstimator.estimate_frequency similarToTicket =
      (8, "References to similar issues found") := by
  decide

/-- Any score delivered by the priority lookup lies in `[0, 38]`. -/
theorem priorityLookup_bound (t : TicketData) (s : ℤ) (h : priorityLookup t = some s) :
    0 ≤ s ∧ s ≤ 38 := by
  unfold priorityLookup at h
  cases hf : PRIORITY_TO_SEVERITY.find? (fun kv => kv.1 == pyLower (orEmpty t.priority)) with
  | none => rw [hf] at h; simp at h
  | some kv =>
      rw [hf] at h
      simp only [Option.map_some'] at h
      have hm := List.mem_of_find?_eq_some hf
      simp only [PRIORITY_TO_SEVERITY, List.mem_cons, List.not_mem_nil, or_false] at hm
      rcases hm with rfl | rfl | rfl | rfl | rfl | rfl | rfl | rfl <;>
        (injection h with h2; subst h2; norm_num)

/-- Any entry delivered by the severity lookup has score in
`{38, 30, 22, 16, 8}`. -/
theorem severityLookup_values (s : String) (kv : String × ℤ) (h : severityLookup s = some kv) :
    kv.2 = 38 ∨ kv.2 = 30 ∨ kv.2 = 22 ∨ kv.2 = 16 ∨ kv.2 = 8 := by
  have hm := List.mem_of_find?_eq_some h
  simp only [SEVERITY_MAPPINGS, List.mem_cons, List.not_mem_nil, or_false] at hm
  rcases hm with rfl | rfl | rfl | rfl | rfl | rfl | rfl | rfl | rfl | rfl | rfl | rfl |
    rfl | rfl | rfl | rfl <;> norm_num

/-- The severity estimate is always within `[0, 38]`. -/
theorem estimate_impact_severity_bound (t : TicketData) :
    0 ≤ (IntelligentImpactEstimator.estimate_impact_severity t).1 ∧
    (IntelligentImpactEstimator.estimate_impact_severity t).1 ≤ 38 := by
  unfold IntelligentImpactEstimator.estimate_impact_severity
  by_cases h0 : (isMonitoringIssue t && serviceIsOk t) = true
  · simp only [h0, if_true]
    norm_num
  · simp only [h0, if_false]
    cases hp : priorityLookup t with
    | some score =>
        have hb := priorityLookup_bound t score hp
        simp only []
        split_ifs <;> simpa using hb
    | none =>
        cases hs : severityLookup (severityField t) with
        | some kv =>
            have hv := severityLookup_values (severityField t) kv hs
            simp only []
            split_ifs <;> omega
        | none =>
            simp only []
            split_ifs <;> norm_num

/-- The customer-ARR estimate is always within `[0, 15]`. -/
theorem estimate_customer_arr_bound (t : TicketData) :
    0 ≤ (IntelligentImpactEstimator.estimate_customer_arr t).1 ∧
    (IntelligentImpactEstimator.estimate_customer_arr t).1 ≤ 15 := by
  simp only [IntelligentImpactEstimator.estimate_customer_arr]
  split
  · norm_num
  · split_ifs <;> norm_num

/-- The SLA estimator either raises the `AttributeError` or returns a score
of 0 or 8. -/
theorem estimate_sla_breach_shape (t : TicketData) :
    IntelligentImpactEstimator.estimate_sla_breach t =
      Except.error "AttributeError: \x27NoneType\x27 object has no attribute \x27lower\x27" ∨
    (∃ msg, IntelligentImpactEstimator.estimate_sla_breach t = Except.ok (0, msg) ∨
            IntelligentImpactEstimator.estimate_sla_breach t = Except.ok (8, msg)) := by
  simp only [IntelligentImpactEstimator.estimate_sla_breach]
  repeat' split
  all_goals
    first
    | exact Or.inl rfl
    | exact Or.inr ⟨_, Or.inl rfl⟩
    | exact Or.inr ⟨_, Or.inr rfl⟩

/-- Whenever the SLA estimator returns a value, its score is 0 or 8. -/
theorem estimate_sla_breach_values (t : TicketData) (v : ℤ × String)
    (h : IntelligentImpactEstimator.estimate_sla_breach t = Except.ok v) :
    v.1 = 0 ∨ v.1 = 8 := by
  rcases estimate_sla_breach_shape t with he | ⟨msg, h0 | h8⟩
  · rw [he] at h
    exact Except.noConfusion h
  · rw [h0] at h
    have hv := Except.ok.inj h
    subst hv
    exact Or.inl rfl
  · rw [h8] at h
    have hv := Except.ok.inj h
    subst hv
    exact Or.inr rfl

/-- The keyword phase of the frequency estimator stays within `[0, 16]`. -/
theorem freqKeywordPhase_bound (d : String) :
    0 ≤ (freqKeywordPhase d).1 ∧ (freqKeywordPhase d).1 ≤ 16 := by
  unfold freqKeywordPhase
  repeat' split
  all_goals norm_num

/-- The frequency estimate is always within `[0, 16]`. -/
theorem estimate_frequency_bound (t : TicketData) :
    0 ≤ (IntelligentImpactEstimator.estimate_frequency t).1 ∧
    (IntelligentImpactEstimator.estimate_frequency t).1 ≤ 16 := by
  simp only [IntelligentImpactEstimator.estimate_frequency]
  repeat' split
  all_goals first | exact freqKeywordPhase_bound _ | norm_num

/-- The workaround estimate is always one of 5, 10, 12 or 15. -/
theorem estimate_workaround_values (t : TicketData) :
    (IntelligentImpactEstimator.estimate_workaround t).1 = 5 ∨
    (IntelligentImpactEstimator.estimate_workaround t).1 = 10 ∨
    (IntelligentImpactEstimator.estimate_workaround t).1 = 12 ∨
    (IntelligentImpactEstimator.estimate_workaround t).1 = 15 := by
  simp only [IntelligentImpactEstimator.estimate_workaround]
  repeat' split
  all_goals norm_num

/-- The RCA estimate is always 0 or 8. -/
theorem estimate_rca_action_item_values (t : TicketData) :
    (IntelligentImpactEstimator.estimate_rca_action_item t).1 = 0 ∨
    (IntelligentImpactEstimator.estimate_rca_action_item t).1 = 8 := by
  simp only [IntelligentImpactEstimator.estimate_rca_action_item]
  repeat' split
  all_goals norm_num

/-- When `estimate_all_components` succeeds, the assembled components pass
the declared bounds. -/
theorem estimate_all_components_valid (t : TicketData) (e : EstimatedComponents)
    (h : IntelligentImpactEstimator.estimate_all_components t = Except.ok e) :
    ValidComponents e.scores := by
  unfold IntelligentImpactEstimator.estimate_all_components at h
  cases hs : IntelligentImpactEstimator.estimate_sla_breach t with
  | error err =>
      rw [hs] at h
      exact Except.noConfusion h
  | ok sla =>
      rw [hs] at h
      have hv := Except.ok.inj h
      subst hv
      refine ⟨estimate_impact_severity_bound t, estimate_customer_arr_bound t,
        estimate_sla_breach_values t sla hs, estimate_frequency_bound t, ?_,
        estimate_rca_action_item_values t,
        by norm_num [EstimatedComponents.scores], by norm_num [EstimatedComponents.scores]⟩
      have hw := estimate_workaround_values t
      simp only [EstimatedComponents.scores]
      constructor <;> omega

/-- Claim C8: every component estimator stays inside the declared bound of
its `ScoreComponents` field — the workaround estimator in particular returns
only 5, 10, 12 or 15 — and a components record assembled from a successful
estimation always passes validation.  The quantifier in the original claim
("for every ticket ... returns a score") fails only because
`estimate_sla_breach` raises on a `None` priority (final conjunct; same
defect as claim C4): whenever a score is returned it is 0 or 8. -/
theorem C8_estimates_within_bounds :
    (∀ t, 0 ≤ (IntelligentImpactEstimator.estimate_impact_severity t).1 ∧
          (IntelligentImpactEstimator.estimate_impact_severity t).1 ≤ 38) ∧
    (∀ t, 0 ≤ (IntelligentImpactEstimator.estimate_customer_arr t).1 ∧
          (IntelligentImpactEstimator.estimate_customer_arr t).1 ≤ 15) ∧
    (∀ t v, IntelligentImpactEstimator.estimate_sla_breach t = Except.ok v →
          (v.1 = 0 ∨ v.1 = 8)) ∧
    (∀ t, 0 ≤ (IntelligentImpactEstimator.estimate_frequency t).1 ∧
          (IntelligentImpactEstimator.estimate_frequency t).1 ≤ 16) ∧
    (∀ t, (IntelligentImpactEstimator.estimate_workaround t).1 = 5 ∨
          (IntelligentImpactEstimator.estimate_workaround t).1 = 10 ∨
          (IntelligentImpactEstimator.estimate_workaround t).1 = 12 ∨
          (IntelligentImpactEstimator.estimate_workaround t).1 = 15) ∧
    (∀ t, (IntelligentImpactEstimator.estimate_rca_action_item t).1 = 0 ∨
          (IntelligentImpactEstimator.estimate_rca_action_item t).1 = 8) ∧
    (∀ t e, IntelligentImpactEstimator.estimate_all_components t = Except.ok e →
          validate_components e.scores = Except.ok ()) ∧
    IntelligentImpactEstimator.estimate_sla_breach emptyTicket =
      Except.error "AttributeError: \x27NoneType\x27 object has no attribute \x27lower\x27" :=
  ⟨estimate_impact_severity_bound, estimate_customer_arr_bound, estimate_sla_breach_values,
   estimate_frequency_bound, estimate_workaround_values, estimate_rca_action_item_values,
   fun t e h => validate_components_ok_of_valid _ (estimate_all_components_valid t e h),
   by decide⟩

/-- Witness for C8: the SLA conjunct applied at the critical-priority
ticket. -/
theorem C8_witness :
    IntelligentImpactEstimator.estimate_sla_breach criticalPriorityTicket =
      Except.ok (8, "Critical priority suggests potential SLA breach") ∧
    (((8 : ℤ), "Critical priority suggests potential SLA breach").1 = 0 ∨
     ((8 : ℤ), "Critical priority suggests potential SLA breach").1 = 8) :=
  ⟨by decide, C8_estimates_within_bounds.2.2.1 criticalPriorityTicket _ (by decide)⟩

/-- Inserting into a sorted list is a permutation of consing. -/
theorem insSorted_perm (s : String) (l : List String) : List.Perm (insSorted s l) (s :: l) := by
  induction l with
  | nil => exact List.Perm.refl _
  | cons x xs ih =>
      unfold insSorted
      split_ifs with h
      · exact List.Perm.refl _
      · exact (ih.cons x).trans (List.Perm.swap s x xs)

/-- Insertion sort permutes its input. -/
theorem sortStr_perm (l : List String) : List.Perm (sortStr l) l := by
  induction l with
  | nil => exact List.Perm.refl _
  | cons x xs ih => exact (insSorted_perm x (sortStr xs)).trans (ih.cons x)

/-- The priority labels followed by the sorted remaining labels are
duplicate-free: the source/customer tags are excluded from the remainder by
the filter, and the remainder of a duplicate-free collection stays
duplicate-free under sorting. -/
theorem labels_assembled_nodup (so cu : Option String) (L : List String) (hL : L.Nodup) :
    ((so.toList ++ cu.toList.filter (fun c => !(so == some c))) ++
      sortStr (L.filter (fun l => !(so == some l) && !(cu == some l)))).Nodup := by
  rw [List.nodup_append]
  refine ⟨?_, ?_, ?_⟩
  · cases so with
    | none => cases cu <;> simp
    | some s =>
        cases cu with
        | none => simp
        | some c =>
            by_cases h : s = c <;> simp [h]
  · rw [List.Perm.nodup_iff (sortStr_perm _)]
    exact hL.filter _
  · intro x hx hx2
    rw [List.Perm.mem_iff (sortStr_perm _)] at hx2
    have hpx := List.of_mem_filter hx2
    simp only [Bool.and_eq_true, Bool.not_eq_true', beq_eq_false_iff_ne, ne_eq] at hpx
    rcases List.mem_append.mp hx with h | h
    · cases so <;> simp_all
    · have hxc := List.mem_of_mem_filter h
      cases cu <;> simp_all

/-- Claim C9: on the FedEx summary the extractor returns exactly
`["fedex", "crdb", "ovc"]` — containing the customer tag and the two
technical keywords, none of the block-listed generic terms, and at most five
entries — and for every input the extractor returns a duplicate-free list of
at most `max_labels` entries. -/
theorem C9_label_extraction :
    LabelExtractor.extract_labels fedexSummary "" none none 5 = ["fedex", "crdb", "ovc"] ∧
    (LabelExtractor.extract_labels fedexSummary "" none none 5).contains "replication" = false ∧
    (LabelExtractor.extract_labels fedexSummary "" none none 5).contains "master" = false ∧
    (LabelExtractor.extract_labels fedexSummary "" none none 5).contains "slave" = false ∧
    (LabelExtractor.extract_labels fedexSummary "" none none 5).length ≤ 5 ∧
    (∀ summary description customer_name source max_labels,
      (LabelExtractor.extract_labels summary description customer_name source max_labels).Nodup) ∧
    (∀ summary description customer_name source max_labels,
      (LabelExtractor.extract_labels summary description customer_name source max_labels).length
        ≤ max_labels) := by
  refine ⟨by decide, by decide, by decide, by decide, by decide, ?_, ?_⟩
  · intro summary description customer_name source max_labels
    simp only [LabelExtractor.extract_labels]
    refine (List.take_sublist _ _).nodup ?_
    apply labels_assembled_nodup
    split_ifs <;> exact List.nodup_dedup _
  · intro summary description customer_name source max_labels
    simp only [LabelExtractor.extract_labels]
    exact List.length_take_le _ _
